import Mathlib

/-!
Verification of the TTS demo repository: a shallow embedding of the
playback controller (`src/components/tts-player.tsx`), the settings
store and gesture handler (`src/unnamed/part_000`), the voice
customizer sliders (`src/components/voice-customizer.tsx`), the noise
detector (`NoiseDetector` in `src/unnamed/part_002`) and the gesture
controller (`GestureController` in `src/unnamed/part_002`).

Numbers that the source manipulates as JS floats (rate, pitch, volume,
progress, amplitudes) are embedded as rationals; the arithmetic the
code performs on them (`+ 0.1`, `* 1.5`, `min`, `max`, comparisons) is
exact on the values involved, so the embedding is faithful.

Asynchronous browser callbacks (utterance lifecycle events, timers,
`requestAnimationFrame` loops) are embedded as explicit events acting
on an explicit state; a reachable state is the fold of an event list
over the initial state.
-/

/-- Mirrors the `voiceSettings` object created in `src/unnamed/part_000`
and threaded through props: voice id, rate, pitch, volume, emotion, style. -/
structure VoiceSettings where
  voice : String
  rate : ℚ
  pitch : ℚ
  volume : ℚ
  emotion : String
  style : String
deriving DecidableEq

/-- The initial `useState` value for `voiceSettings` in `src/unnamed/part_000`. -/
def defaultVoiceSettings : VoiceSettings :=
  { voice := "en-US-Neural2-F", rate := 1, pitch := 1, volume := 1
    emotion := "neutral", style := "casual" }

/-- Mirrors the `environmentSettings` object of `src/unnamed/part_000`. -/
structure EnvironmentSettings where
  noiseLevel : String
  adaptToNoise : Bool
deriving DecidableEq

/-- The initial `useState` value for `environmentSettings` in `src/unnamed/part_000`. -/
def defaultEnvironmentSettings : EnvironmentSettings :=
  { noiseLevel := "normal", adaptToNoise := true }

/-- The mutable fields of a `SpeechSynthesisUtterance` that
`tts-player.tsx` assigns (rate, pitch, volume). -/
structure Utterance where
  rate : ℚ
  pitch : ℚ
  volume : ℚ
deriving DecidableEq

/-- Playback position of the utterance held by the platform synthesis
queue: nothing queued / audibly speaking / paused by
`speechSynthesis.pause()`. -/
inductive SynthState where
  | idle : SynthState
  | speaking : SynthState
  | paused : SynthState
deriving DecidableEq

/-- The state owned by the `TTSPlayer` component in
`src/components/tts-player.tsx`: the `useState` hooks (`text`,
`isPlaying`, `progress`, `isMuted`, `isListening`,
`interruptionDetected`), the `speechSynthRef` utterance, whether the
`progressIntervalRef` ticker is running, and the platform synthesis
position. -/
structure PlayerState where
  text : String
  isPlaying : Bool
  progress : ℚ
  isMuted : Bool
  isListening : Bool
  interruptionDetected : Bool
  tickerActive : Bool
  utterance : Option Utterance
  synth : SynthState
deriving DecidableEq

/-- The component's initial state: the default `text` string, all flags
false, no utterance, nothing queued. -/
def initialPlayerState : PlayerState :=
  { text := "Hello! This is an advanced TTS system with real-time interaction capabilities. Try interrupting me by clicking the microphone button while I'm speaking."
    isPlaying := false, progress := 0, isMuted := false, isListening := false
    interruptionDetected := false, tickerActive := false
    utterance := none, synth := SynthState.idle }

/-- `speak()` from `tts-player.tsx`: no-op when `window.speechSynthesis`
is absent (`avail = false`); otherwise cancels any ongoing speech,
builds an utterance with `rate`, `pitch`, `volume = isMuted ? 0 :
voiceSettings.volume`, boosts the volume to `min(1, volume * 1.5)` when
`adaptToNoise && noiseLevel === "high"`, stores the utterance in
`speechSynthRef`, and queues it (playback state changes happen in the
`onstart` callback, embedded separately). -/
def speak (avail : Bool) (vs : VoiceSettings) (env : EnvironmentSettings)
    (s : PlayerState) : PlayerState :=
  if avail then
    let u0 : Utterance :=
      { rate := vs.rate, pitch := vs.pitch
        volume := if s.isMuted then 0 else vs.volume }
    let u : Utterance :=
      if env.adaptToNoise && (env.noiseLevel == "high") then
        { u0 with volume := min 1 (u0.volume * (3 / 2)) }
      else u0
    { s with synth := SynthState.idle, utterance := some u }
  else s

/-- The `utterance.onstart` callback: sets `isPlaying`, resets
`progress` to 0, starts the progress interval; the platform begins
speaking the queued utterance. -/
def onStart (s : PlayerState) : PlayerState :=
  { s with isPlaying := true, progress := 0, tickerActive := true
           synth := SynthState.speaking }

/-- The `utterance.onend` callback: clears `isPlaying`, forces
`progress` to 100, clears the interval; the utterance has left the
platform queue. -/
def onEnd (s : PlayerState) : PlayerState :=
  { s with isPlaying := false, progress := 100, tickerActive := false
           synth := SynthState.idle }

/-- The `utterance.onerror` callback: clears `isPlaying` and the
interval (progress is left as is). -/
def onError (s : PlayerState) : PlayerState :=
  { s with isPlaying := false, tickerActive := false
           synth := SynthState.idle }

/-- One firing of the progress interval: `progress + delta`, saturated
at 100 (`newProgress > 100 ? 100 : newProgress`); `delta` abstracts the
`100 / duration` increment computed from text length and rate. -/
def progressTick (delta : ℚ) (s : PlayerState) : PlayerState :=
  if s.tickerActive then
    { s with progress :=
        if s.progress + delta > 100 then 100 else s.progress + delta }
  else s

/-- Effect of `speechSynthesis.pause()` on the queued utterance:
audible speech becomes paused; otherwise nothing to pause. -/
def pauseSynth : SynthState → SynthState
  | SynthState.speaking => SynthState.paused
  | x => x

/-- Effect of `speechSynthesis.resume()` on the queued utterance:
paused speech becomes audible again; otherwise nothing to resume. -/
def resumeSynth : SynthState → SynthState
  | SynthState.paused => SynthState.speaking
  | x => x

/-- `pause()` from `tts-player.tsx`: guarded by `window.speechSynthesis`;
pauses the platform synthesis, clears `isPlaying`, clears the interval. -/
def pause (avail : Bool) (s : PlayerState) : PlayerState :=
  if avail then
    { s with isPlaying := false, tickerActive := false
             synth := pauseSynth s.synth }
  else s

/-- `resume()` from `tts-player.tsx`: guarded by `window.speechSynthesis`;
resumes the platform synthesis, sets `isPlaying`, restarts the
interval scaled to the remaining progress. There is no state guard. -/
def resume (avail : Bool) (s : PlayerState) : PlayerState :=
  if avail then
    { s with isPlaying := true, tickerActive := true
             synth := resumeSynth s.synth }
  else s

/-- `stop()` from `tts-player.tsx`: guarded by `window.speechSynthesis`;
cancels the platform synthesis, clears `isPlaying`, zeroes `progress`,
clears the interval. -/
def stop (avail : Bool) (s : PlayerState) : PlayerState :=
  if avail then
    { s with synth := SynthState.idle, isPlaying := false, progress := 0
             tickerActive := false }
  else s

/-- `toggleMute()` from `tts-player.tsx`: flips `isMuted`; when the
facility and a stored utterance exist (`window.speechSynthesis &&
speechSynthRef.current`), assigns the live utterance's volume to `0` if
newly muted (`!isMuted` in the source is the new flag) and to
`voiceSettings.volume` if newly unmuted. -/
def toggleMute (avail : Bool) (vs : VoiceSettings) (s : PlayerState) : PlayerState :=
  let m := !s.isMuted
  match avail, s.utterance with
  | true, some u =>
      { s with isMuted := m
               utterance := some { u with volume := if m then 0 else vs.volume } }
  | _, _ => { s with isMuted := m }

/-- The `useEffect` on `[isMuted, voiceSettings.volume]` in
`tts-player.tsx`: when `speechSynthRef.current` exists, reassigns its
volume to `isMuted ? 0 : voiceSettings.volume`. -/
def volumeEffect (vs : VoiceSettings) (s : PlayerState) : PlayerState :=
  match s.utterance with
  | some u =>
      { s with utterance := some { u with volume := if s.isMuted then 0 else vs.volume } }
  | none => s

/-- The canned follow-up sentence appended by the interruption loop in
`toggleListening`. -/
def cannedFollowUp : String := " I noticed you wanted to interrupt. How can I help?"

/-- `toggleListening()` from `tts-player.tsx`: if listening, just stop
listening; otherwise start listening (and, when `isPlaying`, the source
schedules the 2-second interruption timeout, embedded as
`listenTimeout1`). -/
def toggleListening (s : PlayerState) : PlayerState :=
  if s.isListening then { s with isListening := false }
  else { s with isListening := true }

/-- Body of the 2-second `setTimeout` inside `toggleListening`:
`captured` is the `isPlaying` value captured by the closure; when it is
true the source invokes `pause()`, sets `interruptionDetected`, and
schedules the 1.5-second timeout (`listenTimeout2`); in all cases it
then clears `isListening`. -/
def listenTimeout1 (avail captured : Bool) (s : PlayerState) : PlayerState :=
  let s1 := if captured then
      { pause avail s with interruptionDetected := true }
    else s
  { s1 with isListening := false }

/-- Body of the 1.5-second `setTimeout` inside the interruption branch:
clears `interruptionDetected`, clears `isListening`, appends the canned
follow-up sentence to `text`. -/
def listenTimeout2 (s : PlayerState) : PlayerState :=
  { s with interruptionDetected := false, isListening := false
           text := s.text ++ cannedFollowUp }

/-- `setText` via the textarea's `onChange`. -/
def setText (t : String) (s : PlayerState) : PlayerState :=
  { s with text := t }

/-- The events that can act on the player state: user actions, platform
synthesis callbacks and timer firings, each carrying the props/context
it closes over in the source. -/
inductive PEvent where
  | speakE (avail : Bool) (vs : VoiceSettings) (env : EnvironmentSettings)
  | onStartE
  | onEndE
  | onErrorE
  | tickE (delta : ℚ)
  | pauseE (avail : Bool)
  | resumeE (avail : Bool)
  | stopE (avail : Bool)
  | toggleMuteE (avail : Bool) (vs : VoiceSettings)
  | volumeEffectE (vs : VoiceSettings)
  | toggleListenE
  | listenT1E (avail captured : Bool)
  | listenT2E
  | setTextE (t : String)

/-- Interpretation of one event on the player state. -/
def pstep (s : PlayerState) : PEvent → PlayerState
  | PEvent.speakE avail vs env => speak avail vs env s
  | PEvent.onStartE => onStart s
  | PEvent.onEndE => onEnd s
  | PEvent.onErrorE => onError s
  | PEvent.tickE delta => progressTick delta s
  | PEvent.pauseE avail => pause avail s
  | PEvent.resumeE avail => resume avail s
  | PEvent.stopE avail => stop avail s
  | PEvent.toggleMuteE avail vs => toggleMute avail vs s
  | PEvent.volumeEffectE vs => volumeEffect vs s
  | PEvent.toggleListenE => toggleListening s
  | PEvent.listenT1E avail captured => listenTimeout1 avail captured s
  | PEvent.listenT2E => listenTimeout2 s
  | PEvent.setTextE t => setText t s

/-- A player state is reachable when some event sequence produces it
from the component's initial state. -/
def PReachable (s : PlayerState) : Prop :=
  ∃ evs : List PEvent, evs.foldl pstep initialPlayerState = s

/-- The structural invariant of the player: whenever the component is
not in the Speaking status (`isPlaying = false`), the progress ticker
is stopped and the platform is not audibly speaking. -/
def playerInv (s : PlayerState) : Prop :=
  s.isPlaying = false → s.tickerActive = false ∧ s.synth ≠ SynthState.speaking

/-- The composition root state of `src/unnamed/part_000`: the two
settings stores plus the player component state. -/
structure SystemState where
  voiceSettings : VoiceSettings
  environmentSettings : EnvironmentSettings
  player : PlayerState
deriving DecidableEq

/-- `toggleMute` lifted to the composition root: `tts-player.tsx`
receives the settings as read-only props and issues no settings
update, so only the player component changes. -/
def toggleMuteSys (avail : Bool) (sys : SystemState) : SystemState :=
  { sys with player := toggleMute avail sys.voiceSettings sys.player }

/-- The gesture handler passed as `onGestureDetected` to
`GestureController` in `src/unnamed/part_000`: clamped writes of the
volume and rate fields, all other gestures ignored. -/
def onGestureDetected (gesture : String) (vs : VoiceSettings) : VoiceSettings :=
  if gesture = "volume-up" then { vs with volume := min 2 (vs.volume + 1 / 10) }
  else if gesture = "volume-down" then { vs with volume := max (1 / 10) (vs.volume - 1 / 10) }
  else if gesture = "speed-up" then { vs with rate := min 2 (vs.rate + 1 / 10) }
  else if gesture = "speed-down" then { vs with rate := max (1 / 2) (vs.rate - 1 / 10) }
  else vs

/-- One settings update reaching the store: a slider `onValueChange`
from `voice-customizer.tsx` (rate, pitch or volume) or a gesture event
from the gesture controller. -/
inductive SettingsEvent where
  | sliderRate (x : ℚ)
  | sliderPitch (x : ℚ)
  | sliderVolume (x : ℚ)
  | gestureEvent (gesture : String)

/-- `handleVoiceSettingsChange` shallow-merge of a slider payload, or
the gesture handler, applied to the current settings. -/
def applySettingsEvent (vs : VoiceSettings) : SettingsEvent → VoiceSettings
  | SettingsEvent.sliderRate x => { vs with rate := x }
  | SettingsEvent.sliderPitch x => { vs with pitch := x }
  | SettingsEvent.sliderVolume x => { vs with volume := x }
  | SettingsEvent.gestureEvent g => onGestureDetected g vs

/-- A slider event is valid when its value lies in the `min`/`max`
range the slider enforces in `voice-customizer.tsx` (rate and pitch
0.5–2, volume 0.1–1); every gesture string is a valid event. -/
def validSettingsEvent : SettingsEvent → Prop
  | SettingsEvent.sliderRate x => 1 / 2 ≤ x ∧ x ≤ 2
  | SettingsEvent.sliderPitch x => 1 / 2 ≤ x ∧ x ≤ 2
  | SettingsEvent.sliderVolume x => 1 / 10 ≤ x ∧ x ≤ 1
  | SettingsEvent.gestureEvent _ => True

instance validSettingsEventDecidable : DecidablePred validSettingsEvent := by
  intro e
  cases e with
  | sliderRate x => exact inferInstanceAs (Decidable (1 / 2 ≤ x ∧ x ≤ 2))
  | sliderPitch x => exact inferInstanceAs (Decidable (1 / 2 ≤ x ∧ x ≤ 2))
  | sliderVolume x => exact inferInstanceAs (Decidable (1 / 10 ≤ x ∧ x ≤ 1))
  | gestureEvent g => exact inferInstanceAs (Decidable True)

/-- The documented ranges of the numeric `VoiceSettings` fields:
rate and pitch in [0.5, 2], volume in [0.1, 2]. -/
def settingsInv (vs : VoiceSettings) : Prop :=
  (1 / 2 ≤ vs.rate ∧ vs.rate ≤ 2) ∧ (1 / 2 ≤ vs.pitch ∧ vs.pitch ≤ 2) ∧
  (1 / 10 ≤ vs.volume ∧ vs.volume ≤ 2)

instance settingsInvDecidable (vs : VoiceSettings) : Decidable (settingsInv vs) := by
  unfold settingsInv
  infer_instance

/-- Mean magnitude over the analyser's frequency bins, as computed by
`updateAnalysis` in `NoiseDetector`: `sum / bufferLength`. -/
def meanAmplitude (data : List ℕ) : ℚ := (data.sum : ℚ) / data.length

/-- `updateAnalysis` normalization: `Math.min(100, Math.max(0, average * 1.5))`. -/
def normalizeNoise (average : ℚ) : ℚ := min 100 (max 0 (average * (3 / 2)))

/-- `updateAnalysis` classification: `"normal"` by default, `"low"`
when the normalized value is below 20, `"high"` when above 60. -/
def classifyNoise (v : ℚ) : String :=
  if v < 20 then "low" else if v > 60 then "high" else "normal"

/-- The state owned by `GestureController` in `src/unnamed/part_002`:
the `enabled` prop, the `cameraPermission` state, how many per-frame
`requestAnimationFrame` sampling loops are currently running, and
whether `animationFrameRef` holds the id of a live loop. -/
structure GestureState where
  enabled : Bool
  cameraPermission : String
  frameLoops : ℕ
  frameRef : Bool
deriving DecidableEq

/-- The `videoRef`/`canvasRef` elements are non-null exactly when the
component renders them, which the JSX gates on
`cameraPermission === "granted"`. -/
def videoMounted (g : GestureState) : Bool := g.cameraPermission == "granted"

/-- `startGestureDetection`: returns early unless `enabled` and the
video and canvas refs are non-null; otherwise begins a fresh per-frame
loop and stores its frame id in `animationFrameRef`. -/
def startGestureDetection (g : GestureState) : GestureState :=
  if g.enabled && videoMounted g then
    { g with frameLoops := g.frameLoops + 1, frameRef := true }
  else g

/-- `stopGestureDetection`: cancels the frame id held in
`animationFrameRef` (stopping the loop it belongs to) and nulls the ref. -/
def stopGestureDetection (g : GestureState) : GestureState :=
  if g.frameRef then { g with frameLoops := g.frameLoops - 1, frameRef := false }
  else g

/-- The `useEffect` on `[enabled, cameraPermission]`: when enabled and
permission is pending it calls `startCamera` (an async request whose
resolution is the separate `cameraSuccess`/`cameraFailure` event),
when enabled and granted it calls `startGestureDetection`, and when
disabled it calls `stopGestureDetection`. -/
def gestureEffect (g : GestureState) : GestureState :=
  if g.enabled then
    if g.cameraPermission == "pending" then g
    else if g.cameraPermission == "granted" then startGestureDetection g
    else g
  else stopGestureDetection g

/-- Resolution of the `getUserMedia` promise in `startCamera`: the
source then checks `videoRef.current`, and only inside that check sets
`cameraPermission` to granted and, when enabled, starts detection. -/
def cameraSuccess (g : GestureState) : GestureState :=
  if videoMounted g then
    let g1 := { g with cameraPermission := "granted" }
    if g1.enabled then startGestureDetection g1 else g1
  else g

/-- Rejection of the `getUserMedia` promise: permission denied. -/
def cameraFailure (g : GestureState) : GestureState :=
  { g with cameraPermission := "denied" }

/-- The switch's `onToggle` flips the `enabled` prop in
`src/unnamed/part_000`; the effect then re-runs on the new value. -/
def toggleGesture (g : GestureState) : GestureState :=
  gestureEffect { g with enabled := !g.enabled }

/-- Initial `GestureController` state: disabled, permission pending, no
loop running, no frame id held. -/
def initialGestureState : GestureState :=
  { enabled := false, cameraPermission := "pending", frameLoops := 0, frameRef := false }

/-- Events acting on the gesture controller state. -/
inductive GEvent where
  | toggleE
  | effectE
  | cameraSuccessE
  | cameraFailureE

/-- Interpretation of one gesture-controller event. -/
def gstep (g : GestureState) : GEvent → GestureState
  | GEvent.toggleE => toggleGesture g
  | GEvent.effectE => gestureEffect g
  | GEvent.cameraSuccessE => cameraSuccess g
  | GEvent.cameraFailureE => cameraFailure g

/-- A gesture-controller state is reachable when some event sequence
produces it from the initial state. -/
def GReachable (g : GestureState) : Prop :=
  ∃ evs : List GEvent, evs.foldl gstep initialGestureState = g

/-- What actually holds of every reachable gesture-controller state:
permission never becomes granted, no sampling loop is ever running and
no frame id is ever held. -/
def gestureDead (g : GestureState) : Prop :=
  g.cameraPermission ≠ "granted" ∧ g.frameLoops = 0 ∧ g.frameRef = false

/-- The player state with the mute flag set, as one `toggleMute` from
the initial state produces it. -/
def mutedPlayerState : PlayerState := { initialPlayerState with isMuted := true }

/-- A playing state: the initial state after `speak` has started (the
`onstart` callback has fired). -/
def speakingPlayerState : PlayerState :=
  { initialPlayerState with isPlaying := true, tickerActive := true
                            synth := SynthState.speaking }

/-- A system state whose player holds a live utterance. -/
def liveUtteranceSystem : SystemState :=
  { voiceSettings := defaultVoiceSettings
    environmentSettings := defaultEnvironmentSettings
    player := { initialPlayerState with
                utterance := some { rate := 1, pitch := 1, volume := 1 } } }

/-- Settings with a stored volume whose high-noise boost is strictly
larger than the stored value. -/
def halfVolumeSettings : VoiceSettings := { defaultVoiceSettings with volume := 1 / 2 }

/-- A sample event sequence mixing gestures and slider updates. -/
def sampleSettingsEvents : List SettingsEvent :=
  [SettingsEvent.gestureEvent "volume-up", SettingsEvent.sliderRate 2,
   SettingsEvent.gestureEvent "speed-down", SettingsEvent.sliderVolume (1 / 2)]

theorem pauseSynth_ne_speaking (x : SynthState) :
    pauseSynth x ≠ SynthState.speaking := by
  cases x <;> simp [pauseSynth]

theorem pauseSynth_eq_self (x : SynthState) (h : x ≠ SynthState.speaking) :
    pauseSynth x = x := by
  cases x <;> simp_all [pauseSynth]

theorem progressTick_frame (delta : ℚ) (s : PlayerState) :
    (progressTick delta s).isPlaying = s.isPlaying ∧
    (progressTick delta s).tickerActive = s.tickerActive ∧
    (progressTick delta s).synth = s.synth := by
  unfold progressTick
  split <;> exact ⟨rfl, rfl, rfl⟩

theorem toggleMute_frame (avail : Bool) (vs : VoiceSettings) (s : PlayerState) :
    (toggleMute avail vs s).isPlaying = s.isPlaying ∧
    (toggleMute avail vs s).tickerActive = s.tickerActive ∧
    (toggleMute avail vs s).synth = s.synth := by
  unfold toggleMute
  cases avail <;> cases hu : s.utterance <;> exact ⟨rfl, rfl, rfl⟩

theorem volumeEffect_frame (vs : VoiceSettings) (s : PlayerState) :
    (volumeEffect vs s).isPlaying = s.isPlaying ∧
    (volumeEffect vs s).tickerActive = s.tickerActive ∧
    (volumeEffect vs s).synth = s.synth := by
  unfold volumeEffect
  cases hu : s.utterance <;> exact ⟨rfl, rfl, rfl⟩

theorem toggleListening_frame (s : PlayerState) :
    (toggleListening s).isPlaying = s.isPlaying ∧
    (toggleListening s).tickerActive = s.tickerActive ∧
    (toggleListening s).synth = s.synth := by
  unfold toggleListening
  split <;> exact ⟨rfl, rfl, rfl⟩

theorem playerInv_pstep (s : PlayerState) (e : PEvent) (h : playerInv s) :
    playerInv (pstep s e) := by
  cases e with
  | speakE avail vs env =>
    cases avail with
    | false => exact h
    | true =>
      intro hp
      exact ⟨(h hp).1, by exact fun hc => SynthState.noConfusion hc⟩
  | onStartE => intro hp; exact absurd hp (by simp [pstep, onStart])
  | onEndE => intro hp; exact ⟨rfl, fun hc => SynthState.noConfusion hc⟩
  | onErrorE => intro hp; exact ⟨rfl, fun hc => SynthState.noConfusion hc⟩
  | tickE delta =>
    intro hp
    obtain ⟨h1, h2, h3⟩ := progressTick_frame delta s
    rw [pstep] at hp ⊢
    rw [h1] at hp
    rw [h2, h3]
    exact h hp
  | pauseE avail =>
    cases avail with
    | false => exact h
    | true =>
      intro _
      exact ⟨rfl, pauseSynth_ne_speaking s.synth⟩
  | resumeE avail =>
    cases avail with
    | false => exact h
    | true => intro hp; exact absurd hp (by simp [pstep, resume])
  | stopE avail =>
    cases avail with
    | false => exact h
    | true => intro _; exact ⟨rfl, fun hc => SynthState.noConfusion hc⟩
  | toggleMuteE avail vs =>
    intro hp
    obtain ⟨h1, h2, h3⟩ := toggleMute_frame avail vs s
    rw [pstep] at hp ⊢
    rw [h1] at hp
    rw [h2, h3]
    exact h hp
  | volumeEffectE vs =>
    intro hp
    obtain ⟨h1, h2, h3⟩ := volumeEffect_frame vs s
    rw [pstep] at hp ⊢
    rw [h1] at hp
    rw [h2, h3]
    exact h hp
  | toggleListenE =>
    intro hp
    obtain ⟨h1, h2, h3⟩ := toggleListening_frame s
    rw [pstep] at hp ⊢
    rw [h1] at hp
    rw [h2, h3]
    exact h hp
  | listenT1E avail captured =>
    cases captured with
    | false =>
      intro hp
      exact h hp
    | true =>
      cases avail with
      | false =>
        intro hp
        exact h hp
      | true =>
        intro _
        exact ⟨rfl, pauseSynth_ne_speaking s.synth⟩
  | listenT2E => intro hp; exact h hp
  | setTextE t => intro hp; exact h hp

theorem playerInv_reachable (s : PlayerState) (h : PReachable s) : playerInv s := by
  obtain ⟨evs, rfl⟩ := h
  have base : playerInv initialPlayerState := by
    intro hp
    simp [initialPlayerState]
  have gen : ∀ (l : List PEvent) (t : PlayerState), playerInv t →
      playerInv (l.foldl pstep t) := by
    intro l
    induction l with
    | nil => intro t ht; simpa using ht
    | cons a rest ih =>
      intro t ht
      exact ih (pstep t a) (playerInv_pstep t a ht)
  exact gen evs initialPlayerState base

theorem settingsInv_apply (vs : VoiceSettings) (e : SettingsEvent)
    (hv : validSettingsEvent e) (h : settingsInv vs) :
    settingsInv (applySettingsEvent vs e) := by
  obtain ⟨⟨hr1, hr2⟩, ⟨hp1, hp2⟩, hv1, hv2⟩ := h
  cases e with
  | sliderRate x =>
    obtain ⟨hx1, hx2⟩ := hv
    exact ⟨⟨hx1, hx2⟩, ⟨hp1, hp2⟩, hv1, hv2⟩
  | sliderPitch x =>
    obtain ⟨hx1, hx2⟩ := hv
    exact ⟨⟨hr1, hr2⟩, ⟨hx1, hx2⟩, hv1, hv2⟩
  | sliderVolume x =>
    obtain ⟨hx1, hx2⟩ := hv
    exact ⟨⟨hr1, hr2⟩, ⟨hp1, hp2⟩, hx1, hx2.trans (by norm_num)⟩
  | gestureEvent g =>
    show settingsInv (onGestureDetected g vs)
    unfold onGestureDetected
    split_ifs
    · exact ⟨⟨hr1, hr2⟩, ⟨hp1, hp2⟩,
        le_min (by norm_num) (by linarith), min_le_left _ _⟩
    · exact ⟨⟨hr1, hr2⟩, ⟨hp1, hp2⟩,
        le_max_left _ _, max_le (by norm_num) (by linarith)⟩
    · exact ⟨⟨le_min (by norm_num) (by linarith), min_le_left _ _⟩,
        ⟨hp1, hp2⟩, hv1, hv2⟩
    · exact ⟨⟨le_max_left _ _, max_le (by norm_num) (by linarith)⟩,
        ⟨hp1, hp2⟩, hv1, hv2⟩
    · exact ⟨⟨hr1, hr2⟩, ⟨hp1, hp2⟩, hv1, hv2⟩

theorem gestureDead_effect (g : GestureState) (h : gestureDead g) :
    gestureDead (gestureEffect g) := by
  obtain ⟨h1, h2, h3⟩ := h
  have hm : videoMounted g = false := by
    simp [videoMounted, h1]
  unfold gestureEffect
  split_ifs with ha hb hc
  · exact ⟨h1, h2, h3⟩
  · unfold startGestureDetection
    rw [hm]
    simp only [Bool.and_false, Bool.false_eq_true, if_false]
    exact ⟨h1, h2, h3⟩
  · exact ⟨h1, h2, h3⟩
  · unfold stopGestureDetection
    rw [h3]
    simp only [Bool.false_eq_true, if_false]
    exact ⟨h1, h2, h3⟩

theorem gestureDead_gstep (g : GestureState) (e : GEvent) (h : gestureDead g) :
    gestureDead (gstep g e) := by
  obtain ⟨h1, h2, h3⟩ := h
  cases e with
  | toggleE => exact gestureDead_effect { g with enabled := !g.enabled } ⟨h1, h2, h3⟩
  | effectE => exact gestureDead_effect g ⟨h1, h2, h3⟩
  | cameraSuccessE =>
    have hm : videoMounted g = false := by
      simp [videoMounted, h1]
    show gestureDead (cameraSuccess g)
    unfold cameraSuccess
    rw [hm]
    simp only [Bool.false_eq_true, if_false]
    exact ⟨h1, h2, h3⟩
  | cameraFailureE =>
    refine ⟨?_, h2, h3⟩
    show ("denied" : String) ≠ "granted"
    decide

theorem gestureDead_reachable (g : GestureState) (h : GReachable g) :
    gestureDead g := by
  obtain ⟨evs, rfl⟩ := h
  have base : gestureDead initialGestureState := ⟨by decide, rfl, rfl⟩
  have gen : ∀ (l : List GEvent) (t : GestureState), gestureDead t →
      gestureDead (l.foldl gstep t) := by
    intro l
    induction l with
    | nil => intro t ht; simpa using ht
    | cons a rest ih =>
      intro t ht
      exact ih (gstep t a) (gestureDead_gstep t a ht)
  exact gen evs initialGestureState base

/-- C1 (counterexample): the claim fails for muted calls. With the
default stored volume 1 and the mute flag set, a `speak` call with
`adaptToNoise = false` passes volume 0 to the speech service, not the
stored volume 1 — the source zeroes the base volume before the
environment adaptation step. -/
theorem c1_volume_counterexample :
    mutedPlayerState.isMuted = true ∧
    (speak true defaultVoiceSettings { noiseLevel := "normal", adaptToNoise := false }
        mutedPlayerState).utterance.map Utterance.volume = some 0 ∧
    defaultVoiceSettings.volume = 1 ∧ (0 : ℚ) ≠ 1 := by
  refine ⟨rfl, rfl, rfl, by norm_num⟩

/-- C1 (amended): for unmuted calls, `speak` passes volume
`min(1, storedVolume * 1.5)` when `adaptToNoise = true` and
`noiseLevel = "high"`, and exactly the stored volume when
`adaptToNoise = false`; for muted calls it passes 0 regardless of the
environment settings. -/
theorem c1_volume_amended (vs : VoiceSettings) (env : EnvironmentSettings)
    (s : PlayerState) :
    (s.isMuted = false → env.adaptToNoise = true → env.noiseLevel = "high" →
      (speak true vs env s).utterance.map Utterance.volume =
        some (min 1 (vs.volume * (3 / 2)))) ∧
    (s.isMuted = false → env.adaptToNoise = false →
      (speak true vs env s).utterance.map Utterance.volume = some vs.volume) ∧
    (s.isMuted = true →
      (speak true vs env s).utterance.map Utterance.volume = some 0) := by
  refine ⟨?_, ?_, ?_⟩
  · intro hm ha hn
    simp [speak, hm, ha, hn]
  · intro hm ha
    simp [speak, hm, ha]
  · intro hm
    by_cases hc : (env.adaptToNoise && (env.noiseLevel == "high")) = true
    · simp [speak, hm, hc]
    · simp [speak, hm, hc]

/-- C1 (witness for the amended theorem): with the default settings
(stored volume 1), an unmuted `speak` under `adaptToNoise = true` and
`noiseLevel = "high"` passes `min(1, 1 * 1.5)`. -/
theorem c1_volume_amended_witness :
    (speak true defaultVoiceSettings { noiseLevel := "high", adaptToNoise := true }
        initialPlayerState).utterance.map Utterance.volume =
      some (min 1 (defaultVoiceSettings.volume * (3 / 2))) :=
  (c1_volume_amended defaultVoiceSettings
      { noiseLevel := "high", adaptToNoise := true } initialPlayerState).1 rfl rfl rfl

/-- C2 (counterexample): `resume()` is not guarded by the Paused
status. The initial state is not Speaking and not Paused, yet
`resume()` changes it (it sets `isPlaying` and starts the ticker). -/
theorem c2_guard_counterexample :
    initialPlayerState.isPlaying = false ∧
    initialPlayerState.synth ≠ SynthState.paused ∧
    resume true initialPlayerState ≠ initialPlayerState := by
  refine ⟨rfl, fun hc => SynthState.noConfusion hc, fun hc => ?_⟩
  have hpl := congrArg PlayerState.isPlaying hc
  simp [resume, initialPlayerState] at hpl

/-- C2 (amended): `pause()` leaves the playback state unchanged in
every reachable state whose status is not Speaking; `resume()` is
unguarded — whenever the speech facility is available it sets the
status to Speaking and restarts the ticker from any state, not only
from Paused. -/
theorem c2_guards_amended :
    (∀ s : PlayerState, PReachable s → s.isPlaying = false →
      ∀ b : Bool, pause b s = s) ∧
    (∀ s : PlayerState,
      (resume true s).isPlaying = true ∧ (resume true s).tickerActive = true) := by
  constructor
  · intro s hr hp b
    obtain ⟨ht, hs⟩ := playerInv_reachable s hr hp
    cases b with
    | false => rfl
    | true =>
      have hps : pauseSynth s.synth = s.synth := pauseSynth_eq_self s.synth hs
      have hshape : pause true s =
          { s with isPlaying := false, tickerActive := false
                   synth := pauseSynth s.synth } := rfl
      rw [hshape, hps]
      cases s
      simp_all
  · intro s
    exact ⟨rfl, rfl⟩

/-- C2 (witness): at the reachable initial state, `pause()` is a
no-op, and `resume()` forces the Speaking status. -/
theorem c2_guards_amended_witness :
    pause true initialPlayerState = initialPlayerState ∧
    (resume true initialPlayerState).isPlaying = true :=
  ⟨c2_guards_amended.1 initialPlayerState ⟨[], rfl⟩ rfl true,
   (c2_guards_amended.2 initialPlayerState).1⟩

/-- C3: after any finite sequence of valid slider updates and
gesture-driven updates starting from the default settings, the rate
stays in [0.5, 2], the pitch in [0.5, 2] and the volume in [0.1, 2]. -/
theorem c3_clamping_invariant (evs : List SettingsEvent)
    (hv : ∀ e ∈ evs, validSettingsEvent e) :
    settingsInv (evs.foldl applySettingsEvent defaultVoiceSettings) := by
  have base : settingsInv defaultVoiceSettings := by
    norm_num [settingsInv, defaultVoiceSettings]
  have gen : ∀ (l : List SettingsEvent) (vs : VoiceSettings),
      (∀ e ∈ l, validSettingsEvent e) → settingsInv vs →
      settingsInv (l.foldl applySettingsEvent vs) := by
    intro l
    induction l with
    | nil => intro vs _ h; simpa using h
    | cons a rest ih =>
      intro vs hva h
      exact ih (applySettingsEvent vs a)
        (fun e he => hva e (List.mem_cons_of_mem a he))
        (settingsInv_apply vs a (hva a (List.mem_cons_self a rest)) h)
  exact gen evs defaultVoiceSettings hv base

/-- C3 (witness): the invariant after a concrete mixed sequence of
gesture and slider events. -/
theorem c3_clamping_invariant_witness :
    settingsInv (sampleSettingsEvents.foldl applySettingsEvent defaultVoiceSettings) :=
  c3_clamping_invariant sampleSettingsEvents (by
    norm_num [sampleSettingsEvents, List.forall_mem_cons, validSettingsEvent])

/-- C4: the noise monitor's normalization lands in [0, 100], the
classification of a normalized value v is "low" iff v < 20, "normal"
iff 20 ≤ v ≤ 60 and "high" iff v > 60, and in particular 19.9 maps to
"low", 20 and 60 to "normal", 60.1 to "high". -/
theorem c4_noise_classification :
    (∀ a : ℚ, 0 ≤ normalizeNoise a ∧ normalizeNoise a ≤ 100) ∧
    (∀ v : ℚ, (classifyNoise v = "low" ↔ v < 20) ∧
      (classifyNoise v = "normal" ↔ 20 ≤ v ∧ v ≤ 60) ∧
      (classifyNoise v = "high" ↔ 60 < v)) ∧
    classifyNoise (199 / 10) = "low" ∧ classifyNoise 20 = "normal" ∧
    classifyNoise 60 = "normal" ∧ classifyNoise (601 / 10) = "high" := by
  refine ⟨?_, ?_, by norm_num [classifyNoise], by norm_num [classifyNoise],
    by norm_num [classifyNoise], by norm_num [classifyNoise]⟩
  · intro a
    unfold normalizeNoise
    exact ⟨le_min (by norm_num) (le_max_left 0 _), min_le_left _ _⟩
  · intro v
    unfold classifyNoise
    split_ifs with h1 h2
    · refine ⟨iff_of_true rfl h1, iff_of_false (by decide) ?_, iff_of_false (by decide) ?_⟩
      · rintro ⟨ha, _⟩; linarith
      · intro hc; linarith
    · refine ⟨iff_of_false (by decide) ?_, iff_of_false (by decide) ?_, iff_of_true rfl h2⟩
      · intro hc; linarith
      · rintro ⟨_, hb⟩; linarith
    · push_neg at h1 h2
      refine ⟨iff_of_false (by decide) ?_, iff_of_true rfl ⟨h1, h2⟩,
        iff_of_false (by decide) ?_⟩
      · intro hc; linarith
      · intro hc; linarith

/-- C5: after `stop()` (facility available), progress is 0, the status
is not Speaking, the platform synthesis is cancelled and the progress
ticker is stopped, regardless of the prior state. -/
theorem c5_stop_resets (s : PlayerState) :
    (stop true s).progress = 0 ∧ (stop true s).isPlaying = false ∧
    (stop true s).tickerActive = false ∧ (stop true s).synth = SynthState.idle :=
  ⟨rfl, rfl, rfl, rfl⟩

/-- C6: starting to listen while Speaking turns listening on; when the
first fixed delay fires with speech still playing, the controller
performs exactly a `pause()` plus setting `interruptionDetected`
(and clearing `isListening`); the second fixed delay then clears
`interruptionDetected`, ends listening and appends the canned
follow-up sentence to the text. -/
theorem c6_interruption_loop (s : PlayerState) (hl : s.isListening = false)
    (hp : s.isPlaying = true) :
    (toggleListening s).isListening = true ∧
    (toggleListening s).isPlaying = true ∧
    listenTimeout1 true true (toggleListening s) =
      { pause true (toggleListening s) with
        interruptionDetected := true, isListening := false } ∧
    (listenTimeout1 true true (toggleListening s)).isPlaying = false ∧
    (listenTimeout1 true true (toggleListening s)).tickerActive = false ∧
    (listenTimeout1 true true (toggleListening s)).interruptionDetected = true ∧
    (listenTimeout2 (listenTimeout1 true true (toggleListening s))).interruptionDetected = false ∧
    (listenTimeout2 (listenTimeout1 true true (toggleListening s))).isListening = false ∧
    (listenTimeout2 (listenTimeout1 true true (toggleListening s))).text =
      s.text ++ cannedFollowUp := by
  have ht : toggleListening s = { s with isListening := true } := by
    unfold toggleListening
    rw [if_neg (by simp [hl])]
  rw [ht]
  exact ⟨rfl, hp, rfl, rfl, rfl, rfl, rfl, rfl, rfl⟩

/-- C6 (witness): the interruption loop run from a concrete Speaking,
non-listening state. -/
theorem c6_interruption_loop_witness :
    (toggleListening speakingPlayerState).isListening = true ∧
    (toggleListening speakingPlayerState).isPlaying = true ∧
    listenTimeout1 true true (toggleListening speakingPlayerState) =
      { pause true (toggleListening speakingPlayerState) with
        interruptionDetected := true, isListening := false } ∧
    (listenTimeout1 true true (toggleListening speakingPlayerState)).isPlaying = false ∧
    (listenTimeout1 true true (toggleListening speakingPlayerState)).tickerActive = false ∧
    (listenTimeout1 true true (toggleListening speakingPlayerState)).interruptionDetected = true ∧
    (listenTimeout2 (listenTimeout1 true true (toggleListening speakingPlayerState))).interruptionDetected = false ∧
    (listenTimeout2 (listenTimeout1 true true (toggleListening speakingPlayerState))).isListening = false ∧
    (listenTimeout2 (listenTimeout1 true true (toggleListening speakingPlayerState))).text =
      speakingPlayerState.text ++ cannedFollowUp :=
  c6_interruption_loop speakingPlayerState rfl rfl

/-- C7 (code evaluation): no gesture sampling loop can ever start. The
source only sets `cameraPermission` to "granted" behind a
`videoRef.current` check, but the video element is rendered only once
the permission already is "granted"; hence in every reachable
controller state the permission is not "granted" and zero loops run —
in particular, enabling gesture control and then having the camera
request succeed leaves the permission "pending" with no loop, so a
re-enable can never start the fresh loop the claim describes. -/
theorem c7_no_loop_ever_starts :
    (∀ g : GestureState, GReachable g →
      g.cameraPermission ≠ "granted" ∧ g.frameLoops = 0) ∧
    (toggleGesture initialGestureState).enabled = true ∧
    (cameraSuccess (toggleGesture initialGestureState)).cameraPermission = "pending" ∧
    (cameraSuccess (toggleGesture initialGestureState)).frameLoops = 0 := by
  refine ⟨?_, by decide, by decide, by decide⟩
  intro g hg
  obtain ⟨h1, h2, _⟩ := gestureDead_reachable g hg
  exact ⟨h1, h2⟩

/-- C7 (witness): the reachable-state part applied at the initial
state. -/
theorem c7_no_loop_ever_starts_witness :
    initialGestureState.cameraPermission ≠ "granted" ∧
    initialGestureState.frameLoops = 0 :=
  c7_no_loop_ever_starts.1 initialGestureState ⟨[], rfl⟩

/-- C8: `toggleMute` flips only the mute flag and (when a live
utterance exists) the live utterance's volume — zeroing it when muting
and restoring the stored volume when unmuting; the stored
VoiceSettings and every other player field are unchanged. -/
theorem c8_toggleMute_frame_effect (b : Bool) (sys : SystemState) :
    (toggleMuteSys b sys).voiceSettings = sys.voiceSettings ∧
    (toggleMuteSys b sys).environmentSettings = sys.environmentSettings ∧
    (toggleMute b sys.voiceSettings sys.player).isMuted = !sys.player.isMuted ∧
    (toggleMute b sys.voiceSettings sys.player).text = sys.player.text ∧
    (toggleMute b sys.voiceSettings sys.player).isPlaying = sys.player.isPlaying ∧
    (toggleMute b sys.voiceSettings sys.player).progress = sys.player.progress ∧
    (toggleMute b sys.voiceSettings sys.player).isListening = sys.player.isListening ∧
    (toggleMute b sys.voiceSettings sys.player).interruptionDetected =
      sys.player.interruptionDetected ∧
    (toggleMute b sys.voiceSettings sys.player).tickerActive = sys.player.tickerActive ∧
    (toggleMute b sys.voiceSettings sys.player).synth = sys.player.synth ∧
    (toggleMute b sys.voiceSettings sys.player).utterance.map Utterance.rate =
      sys.player.utterance.map Utterance.rate ∧
    (toggleMute b sys.voiceSettings sys.player).utterance.map Utterance.pitch =
      sys.player.utterance.map Utterance.pitch ∧
    (sys.player.isMuted = false → b = true → sys.player.utterance.isSome = true →
      (toggleMute b sys.voiceSettings sys.player).utterance.map Utterance.volume =
        some 0) ∧
    (sys.player.isMuted = true → b = true → sys.player.utterance.isSome = true →
      (toggleMute b sys.voiceSettings sys.player).utterance.map Utterance.volume =
        some sys.voiceSettings.volume) := by
  unfold toggleMuteSys toggleMute
  cases b <;> cases hu : sys.player.utterance <;> simp_all

/-- C8 (witness): muting at a state with a live utterance zeroes the
live volume and leaves the stored settings untouched. -/
theorem c8_toggleMute_frame_effect_witness :
    (toggleMuteSys true liveUtteranceSystem).voiceSettings =
      liveUtteranceSystem.voiceSettings ∧
    (toggleMute true liveUtteranceSystem.voiceSettings
        liveUtteranceSystem.player).utterance.map Utterance.volume = some 0 := by
  obtain ⟨h1, _, _, _, _, _, _, _, _, _, _, _, h13, _⟩ :=
    c8_toggleMute_frame_effect true liveUtteranceSystem
  exact ⟨h1, h13 rfl rfl rfl⟩

/-- C9: when the platform speech facility is unavailable, `speak()`
returns normally and leaves the entire playback state unchanged. -/
theorem c9_speak_no_facility (vs : VoiceSettings) (env : EnvironmentSettings)
    (s : PlayerState) : speak false vs env s = s := rfl

/-- C10: the volume effect reassigns a live utterance's volume to
exactly 0 when muted and to the stored volume when unmuted (leaving
every other field and the utterance's rate and pitch alone); in
particular, after a mute/unmute round trip following a boosted `speak`
under `adaptToNoise = true` and `noiseLevel = "high"`, the live volume
is the stored volume, not the boosted one. -/
theorem c10_live_volume_reassignment (vs : VoiceSettings)
    (env : EnvironmentSettings) (s : PlayerState) :
    (s.utterance.isSome = true →
      (volumeEffect vs s).utterance.map Utterance.volume =
        some (if s.isMuted then 0 else vs.volume)) ∧
    (volumeEffect vs s).text = s.text ∧
    (volumeEffect vs s).isPlaying = s.isPlaying ∧
    (volumeEffect vs s).progress = s.progress ∧
    (volumeEffect vs s).isMuted = s.isMuted ∧
    (volumeEffect vs s).utterance.map Utterance.rate =
      s.utterance.map Utterance.rate ∧
    (volumeEffect vs s).utterance.map Utterance.pitch =
      s.utterance.map Utterance.pitch ∧
    (s.isMuted = false → env.adaptToNoise = true → env.noiseLevel = "high" →
      (volumeEffect vs (toggleMute true vs (toggleMute true vs
          (speak true vs env s)))).utterance.map Utterance.volume =
        some vs.volume) := by
  refine ⟨?_, ?_, ?_, ?_, ?_, ?_, ?_, ?_⟩
  · intro hu
    unfold volumeEffect
    cases hc : s.utterance with
    | none => rw [hc] at hu; exact absurd hu (by simp)
    | some u => rfl
  · unfold volumeEffect; cases hc : s.utterance <;> simp [hc]
  · unfold volumeEffect; cases hc : s.utterance <;> simp [hc]
  · unfold volumeEffect; cases hc : s.utterance <;> simp [hc]
  · unfold volumeEffect; cases hc : s.utterance <;> simp [hc]
  · unfold volumeEffect; cases hc : s.utterance <;> simp [hc]
  · unfold volumeEffect; cases hc : s.utterance <;> simp [hc]
  · intro hm ha hn
    simp [speak, toggleMute, volumeEffect, hm, ha, hn]

/-- C10 (witness): with stored volume 0.5 (boosted to 0.75 by a
high-noise `speak`), a mute/unmute round trip leaves the live volume
at the stored 0.5. -/
theorem c10_live_volume_reassignment_witness :
    (volumeEffect halfVolumeSettings (toggleMute true halfVolumeSettings
        (toggleMute true halfVolumeSettings
          (speak true halfVolumeSettings { noiseLevel := "high", adaptToNoise := true }
            initialPlayerState)))).utterance.map Utterance.volume =
      some halfVolumeSettings.volume :=
  (c10_live_volume_reassignment halfVolumeSettings
      { noiseLevel := "high", adaptToNoise := true } initialPlayerState).2.2.2.2.2.2.2
    rfl rfl rfl
